import Mathlib

/-!
Verification of the AI-Group-Storytelling web application's route middleware
(`src/middleware.js`) and idle-session guard (`src/contexts/AuthContext.jsx`).

The JavaScript code is shallowly embedded: pure route decisions become Lean
functions over `String` pathnames, the stateful idle-session guard becomes an
explicit state machine (`GuardState` / `guardStep`), and the cookie
write/parse pipeline (`JSON.stringify`, `decodeURIComponent`, `JSON.parse`)
is modelled over `List Char`.
-/

namespace StoryApp

/-! ## Models of the JavaScript string primitives used by the middleware -/

/-- Model of JS `String.prototype.startsWith` on character lists:
`jsStartsWithL s p` is `true` iff `p` is an initial segment of `s`. -/
def jsStartsWithL : List Char → List Char → Bool
  | _, [] => true
  | [], _ :: _ => false
  | c :: cs, p :: ps => c == p && jsStartsWithL cs ps

/-- Model of JS `pathname.startsWith(p)`. -/
def jsStartsWith (s p : String) : Bool :=
  jsStartsWithL s.data p.data

/-- Model of JS `pathname.includes('.')` specialised to a single character. -/
def jsIncludesChar (s : String) (c : Char) : Bool :=
  s.data.contains c

theorem jsStartsWithL_iff (s p : List Char) :
    jsStartsWithL s p = true ↔ ∃ rest, s = p ++ rest := by
  induction p generalizing s with
  | nil => simp [jsStartsWithL]
  | cons c cs ih =>
    cases s with
    | nil => simp [jsStartsWithL]
    | cons a as => simp [jsStartsWithL, ih]

theorem jsStartsWith_iff (s p : String) :
    jsStartsWith s p = true ↔ ∃ rest, s.data = p.data ++ rest :=
  jsStartsWithL_iff s.data p.data

/-! ## The route middleware (`src/middleware.js`) -/

/-- The session document the middleware reads from the `user` cookie:
a `{role, email}` record. -/
structure SessionUser where
  role : String
  email : String
deriving DecidableEq

/-- The decision the middleware returns for a request: `NextResponse.next()`
or `NextResponse.redirect(target)`. -/
inductive RouteDecision where
  | next : RouteDecision
  | redirect (target : String) : RouteDecision
deriving DecidableEq

/-- `publicRoutes` list from `src/middleware.js`. -/
def publicRoutes : List String :=
  ["/", "/login", "/register", "/forgot-password", "/reset-password", "/about", "/contact"]

/-- `parentOnlyRoutes` list from `src/middleware.js` (child sessions are
redirected away from these). -/
def parentOnlyRoutes : List String :=
  ["/dashboard", "/create-story", "/edit-story", "/my-stories", "/profile", "/settings"]

/-- The static/internal/API bypass at the top of `middleware`:
`pathname.startsWith('/_next') || pathname.startsWith('/api') || pathname.includes('.')`. -/
def isStaticBypass (pathname : String) : Bool :=
  jsStartsWith pathname "/_next" || jsStartsWith pathname "/api" || jsIncludesChar pathname '.'

/-- The public-route test from `middleware`:
`publicRoutes.includes(pathname) || publicRoutes.some(route => pathname.startsWith(route + "/"))`. -/
def isPublicRoute (pathname : String) : Bool :=
  publicRoutes.contains pathname ||
    publicRoutes.any (fun route => jsStartsWith pathname (route ++ "/"))

/-- The parent-only test from `middleware`:
`parentOnlyRoutes.some(route => pathname === route || pathname.startsWith(route + "/"))`. -/
def matchesParentOnly (pathname : String) : Bool :=
  parentOnlyRoutes.any (fun route => pathname == route || jsStartsWith pathname (route ++ "/"))

/-- The body of `middleware` from `src/middleware.js`, after the `user`
cookie has been parsed into `user : Option SessionUser`. -/
def middleware (pathname : String) (user : Option SessionUser) : RouteDecision :=
  if isStaticBypass pathname then .next
  else if isPublicRoute pathname then
    match user with
    | some u =>
        if pathname == "/login" || pathname == "/register" then
          .redirect (if u.role == "child" then "/" else "/dashboard")
        else .next
    | none => .next
  else
    match user with
    | none => .redirect "/login"
    | some u =>
        if u.role == "parent" then
          if pathname == "/kid-dashboard" || jsStartsWith pathname "/kid-dashboard/" then
            .redirect "/dashboard"
          else .next
        else if u.role == "child" then
          if matchesParentOnly pathname then .redirect "/" else .next
        else .next

/-! ## The `user` cookie pipeline

`login` in `src/contexts/AuthContext.jsx` writes
`document.cookie = "user=" + JSON.stringify({role, email}) + "; path=/"`,
and `getUser` in `src/middleware.js` reads it back with
`JSON.parse(decodeURIComponent(userCookie))` inside a `try/catch`.
The relevant behaviour of the platform builtins `decodeURIComponent`,
`JSON.stringify` and `JSON.parse` is modelled over `List Char` below. -/

/-- Hexadecimal digit value accepted by a URI escape sequence (`%xy`),
upper or lower case. -/
def hexVal? (c : Char) : Option Nat :=
  if '0' ≤ c ∧ c ≤ '9' then some (c.toNat - '0'.toNat)
  else if 'a' ≤ c ∧ c ≤ 'f' then some (c.toNat - 'a'.toNat + 10)
  else if 'A' ≤ c ∧ c ≤ 'F' then some (c.toNat - 'A'.toNat + 10)
  else none

mutual

/-- Model of JS `decodeURIComponent`: percent-escape sequences are decoded,
all other characters pass through; a `%` not followed by two hex digits
throws (modelled as `none`).  Multi-byte UTF-8 escape sequences are modelled
as individual byte-valued characters. -/
def percentDecodeL : List Char → Option (List Char)
  | [] => some []
  | c :: rest =>
    if c = '%' then percentDecodeHexL rest
    else (percentDecodeL rest).map (fun d => c :: d)

/-- The two hex digits following a `%` in `percentDecodeL`. -/
def percentDecodeHexL : List Char → Option (List Char)
  | a :: b :: r =>
    (match hexVal? a, hexVal? b with
     | some ha, some hb => (percentDecodeL r).map (fun d => Char.ofNat (16 * ha + hb) :: d)
     | _, _ => none)
  | _ => none

end

/-- Lower-case hexadecimal digit character, as produced by JS
`Number.prototype.toString(16)` (used by `JSON.stringify` in `\u00xy`
escapes); meaningful for `n < 16`. -/
def hexDigitChar (n : Nat) : Char :=
  if n < 10 then Char.ofNat (48 + n) else Char.ofNat (87 + n)

/-- Model of the character escaping performed by JS `JSON.stringify` on
string values: `"` and `\` get two-character escapes, the five named control
characters get their short escapes, all other control characters get
`\u00xy`, and every other character is emitted verbatim. -/
def jsonEscapeChar (c : Char) : List Char :=
  if c = '"' then ['\\', '"']
  else if c = '\\' then ['\\', '\\']
  else if c = Char.ofNat 8 then ['\\', 'b']
  else if c = Char.ofNat 9 then ['\\', 't']
  else if c = Char.ofNat 10 then ['\\', 'n']
  else if c = Char.ofNat 12 then ['\\', 'f']
  else if c = Char.ofNat 13 then ['\\', 'r']
  else if c.toNat < 32 then
    ['\\', 'u', '0', '0', hexDigitChar (c.toNat / 16), hexDigitChar (c.toNat % 16)]
  else [c]

/-- JSON escaping of a whole string body. -/
def jsonEscapeL (s : List Char) : List Char :=
  (s.map jsonEscapeChar).flatten

/-- A JSON string literal: escaped body wrapped in double quotes. -/
def jsonQuoteL (s : List Char) : List Char :=
  '"' :: (jsonEscapeL s ++ ['"'])

/-- Model of `JSON.stringify({role, email})`: the exact character sequence
produced for a two-field object literal with `role` first. -/
def serializeUserDocL (role email : List Char) : List Char :=
  "\x7b\"role\":".data ++ jsonQuoteL role ++ ",\"email\":".data ++ jsonQuoteL email ++ "\x7d".data

mutual

/-- Model of JSON string-literal parsing (the part of `JSON.parse` that reads
a string value): the input starts just after the opening quote; the result is
the decoded body together with the remainder after the closing quote. -/
def parseJsonStringBody : List Char → Option (List Char × List Char)
  | [] => none
  | c :: rest =>
    if c = '"' then some ([], rest)
    else if c = '\\' then parseJsonEscape rest
    else (parseJsonStringBody rest).map (fun x => (c :: x.1, x.2))

/-- The character(s) following a backslash inside a JSON string literal. -/
def parseJsonEscape : List Char → Option (List Char × List Char)
  | [] => none
  | e :: r =>
    if e = '"' then (parseJsonStringBody r).map (fun x => ('"' :: x.1, x.2))
    else if e = '\\' then (parseJsonStringBody r).map (fun x => ('\\' :: x.1, x.2))
    else if e = '/' then (parseJsonStringBody r).map (fun x => ('/' :: x.1, x.2))
    else if e = 'b' then (parseJsonStringBody r).map (fun x => (Char.ofNat 8 :: x.1, x.2))
    else if e = 'f' then (parseJsonStringBody r).map (fun x => (Char.ofNat 12 :: x.1, x.2))
    else if e = 'n' then (parseJsonStringBody r).map (fun x => (Char.ofNat 10 :: x.1, x.2))
    else if e = 'r' then (parseJsonStringBody r).map (fun x => (Char.ofNat 13 :: x.1, x.2))
    else if e = 't' then (parseJsonStringBody r).map (fun x => (Char.ofNat 9 :: x.1, x.2))
    else if e = 'u' then parseJsonUnicode r
    else none

/-- The four hex digits of a `\uXXXX` escape inside a JSON string literal. -/
def parseJsonUnicode : List Char → Option (List Char × List Char)
  | a :: b :: c2 :: d :: r2 =>
    (match hexVal? a, hexVal? b, hexVal? c2, hexVal? d with
     | some ha, some hb, some hc, some hd =>
       (parseJsonStringBody r2).map
         (fun x => (Char.ofNat (4096 * ha + 256 * hb + 16 * hc + hd) :: x.1, x.2))
     | _, _, _, _ => none)
  | _ => none

end

/-- Consume an expected literal character sequence, returning the remainder. -/
def dropLitL : List Char → List Char → Option (List Char)
  | [], s => some s
  | _ :: _, [] => none
  | p :: ps, c :: cs => if c = p then dropLitL ps cs else none

/-- Model of `JSON.parse` restricted to the exact `{"role":…,"email":…}`
document shape this application writes; any other JSON text is modelled as a
parse failure (which the middleware treats the same as a malformed cookie). -/
def parseUserDocL (s : List Char) : Option (List Char × List Char) :=
  match dropLitL "\x7b\"role\":\"".data s with
  | none => none
  | some s1 =>
    match parseJsonStringBody s1 with
    | none => none
    | some (role, s2) =>
      match dropLitL ",\"email\":\"".data s2 with
      | none => none
      | some s3 =>
        match parseJsonStringBody s3 with
        | none => none
        | some (email, s4) => if s4 = "\x7d".data then some (role, email) else none

/-- The `getUser` body from `src/middleware.js` applied to a present cookie
value: `JSON.parse(decodeURIComponent(userCookie))`, with the surrounding
`try/catch` modelled by `Option` (`none` = the catch branch returning null). -/
def getUserFromCookieValue (v : String) : Option SessionUser :=
  match percentDecodeL v.data with
  | none => none
  | some d =>
    match parseUserDocL d with
    | none => none
    | some (r, e) => some ⟨String.mk r, String.mk e⟩

/-- `getUser` from `src/middleware.js`: absent cookie yields null, a present
cookie value is decoded and parsed, any failure yields null. -/
def getUser (cookie : Option String) : Option SessionUser :=
  match cookie with
  | none => none
  | some v => getUserFromCookieValue v

/-- The whole middleware on a raw request: parse the `user` cookie with
`getUser`, then decide the route. -/
def middlewareRun (pathname : String) (cookie : Option String) : RouteDecision :=
  middleware pathname (getUser cookie)

/-- The `user` cookie value written by `login` in
`src/contexts/AuthContext.jsx`: the raw `JSON.stringify({role, email})`
text (no URL-encoding is applied by the source). -/
def writeLoginCookieValue (role email : String) : String :=
  String.mk (serializeUserDocL role.data email.data)

/-- Upper-case hexadecimal digit character (as produced by JS
`encodeURIComponent`); meaningful for `n < 16`. -/
def hexDigitCharUpper (n : Nat) : Char :=
  if n < 10 then Char.ofNat (48 + n) else Char.ofNat (55 + n)

/-- Characters that JS `encodeURIComponent` leaves unescaped. -/
def uriUnreserved (c : Char) : Bool :=
  ('A' ≤ c && c ≤ 'Z') || ('a' ≤ c && c ≤ 'z') || ('0' ≤ c && c ≤ '9') ||
    c == '-' || c == '_' || c == '.' || c == '!' || c == '~' || c == '*' ||
    c == Char.ofNat 39 || c == '(' || c == ')'

/-- Modelled from the spec: the spec describes the `user` cookie as a
"URL-encoded document", i.e. the JSON text passed through
`encodeURIComponent`; no such encoding step exists in the source.  The model
is faithful for ASCII text (multi-byte UTF-8 expansion is not modelled),
which suffices for the concrete comparison below. -/
def encodeURIComponentL (s : List Char) : List Char :=
  (s.map fun c =>
    if uriUnreserved c then [c]
    else ['%', hexDigitCharUpper (c.toNat / 16), hexDigitCharUpper (c.toNat % 16)]).flatten

/-- Modelled from the spec: the cookie value the spec's words describe —
the URL-encoded `{role, email}` JSON document. -/
def specLoginCookieValue (role email : String) : String :=
  String.mk (encodeURIComponentL (serializeUserDocL role.data email.data))

/-! ## The idle-session guard (`src/contexts/AuthContext.jsx`)

The provider's mutable pieces — `user`, `showIdleWarning`,
`lastActivityRef`, the two timer refs, the `user` browser cookie and the
router — become an explicit `GuardState`.  An armed timer is modelled by the
absolute time at which its callback is scheduled to fire.  Each React
callback becomes a state transformer; `logoutUser()` being an external call
that can fail, its outcome is a Boolean parameter. -/

/-- `IDLE_TIME = 30 * 60 * 1000` (milliseconds). -/
def IDLE_TIME : Nat := 30 * 60 * 1000

/-- `WARNING_TIME = 5 * 60 * 1000` (milliseconds). -/
def WARNING_TIME : Nat := 5 * 60 * 1000

/-- The client-side session-guard state.  `warningTimer`/`idleTimer` hold the
absolute fire time when armed (`none` = disarmed); `route` records the last
`router.push` target; `loggedErrors` counts `console.error` calls from
logout failures. -/
structure GuardState where
  user : Bool
  showIdleWarning : Bool
  lastActivity : Nat
  warningTimer : Option Nat
  idleTimer : Option Nat
  cookiePresent : Bool
  route : Option String
  loggedErrors : Nat
deriving DecidableEq

/-- `clearIdleTimers`: `clearTimeout` on both timer refs. -/
def clearIdleTimers (s : GuardState) : GuardState :=
  { s with warningTimer := none, idleTimer := none }

/-- `handleAutoLogout`: hide the warning, clear both timers, then
`try { await logoutUser(); clear cookie; setUser(null); push('/login?reason=idle') }
catch { console.error }`.  On failure only the error is logged — the cookie,
the in-memory user and the route are left as they were. -/
def handleAutoLogout (logoutSucceeds : Bool) (s : GuardState) : GuardState :=
  let s1 := clearIdleTimers { s with showIdleWarning := false }
  if logoutSucceeds then
    { s1 with cookiePresent := false, user := false, route := some "/login?reason=idle" }
  else
    { s1 with loggedErrors := s1.loggedErrors + 1 }

/-- `showWarning` (the warning timer's callback), running at time `now`:
make the warning visible and arm the logout timer for `WARNING_TIME`. -/
def showWarning (now : Nat) (s : GuardState) : GuardState :=
  { s with showIdleWarning := true, idleTimer := some (now + WARNING_TIME) }

/-- `resetIdleTimer` at time `now`: no-op when unauthenticated; otherwise
record the activity time, hide the warning, clear both timers and arm the
warning timer for `IDLE_TIME - WARNING_TIME`. -/
def resetIdleTimer (now : Nat) (s : GuardState) : GuardState :=
  if s.user then
    { s with lastActivity := now, showIdleWarning := false,
             warningTimer := some (now + (IDLE_TIME - WARNING_TIME)), idleTimer := none }
  else s

/-- `handleUserActivity` at time `now`: reset the idle timer only when
authenticated and more than 1000 ms have passed since the last recorded
activity (the throttle). -/
def handleUserActivity (now : Nat) (s : GuardState) : GuardState :=
  if s.user = true ∧ now - s.lastActivity > 1000 then resetIdleTimer now s else s

/-- `extendSession` (the "Stay Logged In" action): exactly `resetIdleTimer`. -/
def extendSession (now : Nat) (s : GuardState) : GuardState :=
  resetIdleTimer now s

/-- `logout` (explicit logout): clear timers, hide the warning, then
`await logoutUser()`; on success clear the cookie and navigate to `/login`,
on failure log and rethrow (local user/cookie/route unchanged). -/
def logout (logoutSucceeds : Bool) (s : GuardState) : GuardState :=
  let s1 := { (clearIdleTimers s) with showIdleWarning := false }
  if logoutSucceeds then
    { s1 with cookiePresent := false, route := some "/login" }
  else
    { s1 with loggedErrors := s1.loggedErrors + 1 }

/-- The events that drive the guard: authentication-state changes, throttled
activity, the two timer callbacks firing (a one-shot timer fires only while
armed, at its recorded fire time, and is disarmed by firing), and the two
buttons of the warning dialog. -/
inductive GuardEvent where
  | signIn (now : Nat) : GuardEvent
  | signOutDetected : GuardEvent
  | activity (now : Nat) : GuardEvent
  | stayLoggedIn (now : Nat) : GuardEvent
  | warningTimerFires : GuardEvent
  | idleTimerFires (logoutSucceeds : Bool) : GuardEvent
  | logoutClick (logoutSucceeds : Bool) : GuardEvent
  | logoutNowClick (logoutSucceeds : Bool) : GuardEvent
  | loginCall : GuardEvent
  | registerCall (isParent : Bool) : GuardEvent

/-- One step of the guard.  `signIn` is the `onAuthStateChanged` handler with
a user plus the mount effect's `resetIdleTimer`; `signOutDetected` is its
null branch; `loginCall`/`registerCall` are the cookie-writing login and
register functions (`registerCall` also navigates by role). -/
def guardStep (s : GuardState) : GuardEvent → GuardState
  | .signIn now => resetIdleTimer now { s with user := true }
  | .signOutDetected => { (clearIdleTimers s) with showIdleWarning := false, user := false }
  | .activity now => handleUserActivity now s
  | .stayLoggedIn now => extendSession now s
  | .warningTimerFires =>
      match s.warningTimer with
      | some t => showWarning t { s with warningTimer := none }
      | none => s
  | .idleTimerFires ok =>
      match s.idleTimer with
      | some _ => handleAutoLogout ok { s with idleTimer := none }
      | none => s
  | .logoutClick ok => logout ok s
  | .logoutNowClick ok => handleAutoLogout ok s
  | .loginCall => { s with cookiePresent := true }
  | .registerCall isParent =>
      { s with cookiePresent := true,
               route := some (if isParent then "/dashboard" else "/") }

/-- The provider's initial state: unauthenticated, warning hidden, no timer
armed. -/
def initialGuardState : GuardState :=
  { user := false, showIdleWarning := false, lastActivity := 0,
    warningTimer := none, idleTimer := none, cookiePresent := false,
    route := none, loggedErrors := 0 }

/-- States the guard can actually be in. -/
inductive Reachable : GuardState → Prop where
  | init : Reachable initialGuardState
  | step {s : GuardState} (e : GuardEvent) : Reachable s → Reachable (guardStep s e)

/-! ## Default profile synthesis (`onAuthStateChanged` handler) -/

/-- The authenticated backend user as seen by the `onAuthStateChanged`
handler (`displayName` may be null). -/
structure AuthUser where
  uid : String
  email : String
  displayName : Option String

/-- A document of the `users` collection. -/
structure UserProfileDoc where
  email : String
  displayName : String
  role : String
  familyId : String

/-- The `defaultData` document synthesized by the `onAuthStateChanged`
handler when no backend user document exists
(`role: 'parent', familyId: authUser.uid, displayName: authUser.displayName || ''`). -/
def defaultUserDoc (a : AuthUser) : UserProfileDoc :=
  { email := a.email, displayName := a.displayName.getD "",
    role := "parent", familyId := a.uid }

/-! ## Route-list disjointness -/

theorem matchesParentOnly_not_public (p : String) (h : matchesParentOnly p = true) :
    isPublicRoute p = false := by
  cases p with
  | mk data =>
    simp [matchesParentOnly, parentOnlyRoutes, jsStartsWith, String.data_append,
      String.data, jsStartsWithL_iff, String.ext_iff] at h
    rcases h with (h | ⟨rest, h⟩) | (h | ⟨rest, h⟩) | (h | ⟨rest, h⟩) |
      (h | ⟨rest, h⟩) | (h | ⟨rest, h⟩) | (h | ⟨rest, h⟩) <;>
    subst h <;>
    simp [isPublicRoute, publicRoutes, jsStartsWith, jsStartsWithL, List.contains,
      String.ext_iff, String.data, String.data_append]

theorem kidDashboard_not_public (p : String)
    (h : (p == "/kid-dashboard" || jsStartsWith p "/kid-dashboard/") = true) :
    isPublicRoute p = false := by
  cases p with
  | mk data =>
    simp [jsStartsWith, String.data, jsStartsWithL_iff, String.ext_iff] at h
    rcases h with h | ⟨rest, h⟩ <;>
    subst h <;>
    simp [isPublicRoute, publicRoutes, jsStartsWith, jsStartsWithL, List.contains,
      String.ext_iff, String.data, String.data_append]

/-! ## Claim theorems: route middleware -/

/-- C3 (as stated, refuted): it is not the case that every request whose
path is outside the public-route set and which carries no parsable session is
redirected to `/login` — the path `/api/admin` is outside the public set, yet
an unauthenticated request for it passes through untouched because of the
static/API bypass. -/
theorem unauth_nonpublic_counterexample :
    ¬ (∀ (p : String) (cookie : Option String), isPublicRoute p = false →
        getUser cookie = none → middlewareRun p cookie = RouteDecision.redirect "/login") := by
  intro h
  exact absurd (h "/api/admin" none (by decide) (by decide)) (by decide)

/-- C3 (amended): for every request path that is not caught by the
static/internal/API bypass and is not in the public-route set (by exact or
prefix match), a request with no session — cookie absent or unparsable — is
redirected to `/login`. -/
theorem unauth_nonpublic_redirects_login (p : String) (cookie : Option String)
    (hb : isStaticBypass p = false) (hpub : isPublicRoute p = false)
    (hu : getUser cookie = none) :
    middlewareRun p cookie = RouteDecision.redirect "/login" := by
  simp [middlewareRun, middleware, hb, hpub, hu]

theorem unauth_nonpublic_redirects_login_witness :
    middlewareRun "/dashboard" none = RouteDecision.redirect "/login" :=
  unauth_nonpublic_redirects_login "/dashboard" none (by decide) (by decide) (by decide)

/-- C9: a present but malformed `user` cookie (one that fails to decode or
parse) makes the middleware behave exactly as on a request with no cookie at
all; no error escapes. -/
theorem malformed_cookie_treated_as_absent (p : String) (v : String)
    (h : getUserFromCookieValue v = none) :
    middlewareRun p (some v) = middlewareRun p none := by
  simp [middlewareRun, getUser, h]

theorem malformed_cookie_treated_as_absent_witness :
    middlewareRun "/dashboard" (some "%zz") = middlewareRun "/dashboard" none :=
  malformed_cookie_treated_as_absent "/dashboard" "%zz" (by decide)

/-- C5 (as stated, refuted): it is not the case that every request path
matching a parent-only prefix is redirected to `/` for a child session —
`/dashboard/report.pdf` matches the `/dashboard` prefix, yet the request
passes through untouched because paths containing a dot take the static
bypass. -/
theorem child_parent_only_counterexample :
    ¬ (∀ (p : String) (u : SessionUser), u.role = "child" →
        matchesParentOnly p = true →
        middleware p (some u) = RouteDecision.redirect "/") := by
  intro h
  exact absurd
    (h "/dashboard/report.pdf" ⟨"child", "kid@example.com"⟩ rfl (by decide))
    (by decide)

/-- C5 (amended): for every request path that matches a parent-only prefix
(`/dashboard`, `/create-story`, `/edit-story`, `/my-stories`, `/profile`,
`/settings`; exact or followed by a slash) and is not caught by the
static/internal/API bypass, a child-role session is redirected to `/`, and
never to `/kid-dashboard`. -/
theorem child_parent_only_redirect_root (p : String) (u : SessionUser)
    (hb : isStaticBypass p = false) (hrole : u.role = "child")
    (hm : matchesParentOnly p = true) :
    middleware p (some u) = RouteDecision.redirect "/" ∧
      middleware p (some u) ≠ RouteDecision.redirect "/kid-dashboard" := by
  have hpub := matchesParentOnly_not_public p hm
  constructor
  · simp [middleware, hb, hpub, hrole, hm]
  · simp [middleware, hb, hpub, hrole, hm]

theorem child_parent_only_redirect_root_witness :
    middleware "/dashboard" (some ⟨"child", "kid@example.com"⟩) = RouteDecision.redirect "/" ∧
      middleware "/dashboard" (some ⟨"child", "kid@example.com"⟩) ≠
        RouteDecision.redirect "/kid-dashboard" :=
  child_parent_only_redirect_root "/dashboard" ⟨"child", "kid@example.com"⟩
    (by decide) rfl (by decide)

/-- C6 (as stated, refuted): it is not the case that every parent-role
request for `/kid-dashboard` or a subpath is redirected to `/dashboard` —
the subpath `/kid-dashboard/photo.png` contains a dot, takes the static
bypass, and passes through untouched. -/
theorem parent_kid_dashboard_counterexample :
    ¬ (∀ (p : String) (u : SessionUser), u.role = "parent" →
        (p == "/kid-dashboard" || jsStartsWith p "/kid-dashboard/") = true →
        middleware p (some u) = RouteDecision.redirect "/dashboard") := by
  intro h
  exact absurd
    (h "/kid-dashboard/photo.png" ⟨"parent", "mom@example.com"⟩ rfl (by decide))
    (by decide)

/-- C6 (amended): a parent-role request for `/kid-dashboard` (exact or any
subpath under `/kid-dashboard/`) that is not caught by the
static/internal/API bypass is redirected to `/dashboard`. -/
theorem parent_kid_dashboard_redirect (p : String) (u : SessionUser)
    (hb : isStaticBypass p = false) (hrole : u.role = "parent")
    (hm : (p == "/kid-dashboard" || jsStartsWith p "/kid-dashboard/") = true) :
    middleware p (some u) = RouteDecision.redirect "/dashboard" := by
  have hpub := kidDashboard_not_public p hm
  simp [middleware, hb, hpub, hrole, hm]

theorem parent_kid_dashboard_redirect_witness :
    middleware "/kid-dashboard/stories" (some ⟨"parent", "mom@example.com"⟩) =
      RouteDecision.redirect "/dashboard" :=
  parent_kid_dashboard_redirect "/kid-dashboard/stories" ⟨"parent", "mom@example.com"⟩
    (by decide) rfl (by decide)

/-- C10: when no backend user document exists, the synthesized default
profile always has role `parent` (never `child`) and `familyId` equal to the
user's own uid. -/
theorem default_profile_parent_role (a : AuthUser) :
    (defaultUserDoc a).role = "parent" ∧
      (defaultUserDoc a).familyId = a.uid ∧
      (defaultUserDoc a).role ≠ "child" := by
  refine ⟨rfl, rfl, ?_⟩
  simp [defaultUserDoc]

/-! ## Claim theorems: idle-session guard -/

/-- The state after authenticating at t = 0 and letting the warning timer
fire with no intervening activity. -/
def warnedNoActivityState : GuardState :=
  guardStep (guardStep initialGuardState (GuardEvent.signIn 0)) GuardEvent.warningTimerFires

/-- The state after the logout timer then fires and the external logout call
fails. -/
def failedLogoutState : GuardState :=
  guardStep warnedNoActivityState (GuardEvent.idleTimerFires false)

/-- An authenticated state with the warning visible and the logout timer
armed, as when `handleAutoLogout` is about to run. -/
def preAutoLogoutState : GuardState :=
  { user := true, showIdleWarning := true, lastActivity := 0,
    warningTimer := none, idleTimer := some IDLE_TIME, cookiePresent := true,
    route := none, loggedErrors := 0 }

/-- C1 (as stated, refuted): it is not the case that a failed external
logout during `handleAutoLogout` still clears the local session — at a
state with the cookie present and a user in memory, the failure branch
leaves the cookie present, the user non-null and performs no navigation. -/
theorem auto_logout_failure_counterexample :
    ¬ (∀ s : GuardState,
        (handleAutoLogout false s).loggedErrors = s.loggedErrors + 1 ∧
        (handleAutoLogout false s).cookiePresent = false ∧
        (handleAutoLogout false s).user = false ∧
        (handleAutoLogout false s).route = some "/login?reason=idle") := by
  intro h
  exact absurd (h preAutoLogoutState) (by decide)

/-- C1 (amended): if the external logout call fails during an
idle-triggered logout, the error is logged, the warning is hidden and both
timers are cleared, but the user cookie, the in-memory user and the route
are left unchanged — the local session state is not cleared. -/
theorem auto_logout_failure_local_state (s : GuardState) :
    handleAutoLogout false s =
      { s with showIdleWarning := false, warningTimer := none, idleTimer := none,
               loggedErrors := s.loggedErrors + 1 } :=
  rfl

/-- C2 (as stated, refuted): it is not the case that user activity while
the idle warning is visible leaves the warning and the timers alone — in
the reachable state where the warning has just become visible, an activity
event (necessarily more than one second after the last recorded activity)
hides the warning and resets the timers. -/
theorem activity_warning_counterexample :
    ¬ (∀ (s : GuardState) (now : Nat), Reachable s → s.showIdleWarning = true →
        (guardStep s (GuardEvent.activity now)).showIdleWarning = true ∧
        (guardStep s (GuardEvent.activity now)).warningTimer = s.warningTimer ∧
        (guardStep s (GuardEvent.activity now)).idleTimer = s.idleTimer) := by
  intro h
  have hr : Reachable warnedNoActivityState :=
    Reachable.step GuardEvent.warningTimerFires
      (Reachable.step (GuardEvent.signIn 0) Reachable.init)
  exact absurd (h warnedNoActivityState 1502000 hr (by decide)) (by decide)

/-- C2 (amended): a user activity event in an authenticated session, coming
more than one second after the last recorded activity, has exactly the same
effect as the explicit stay-logged-in action: in particular, while the
warning is visible it dismisses the warning, cancels the logout timer and
rearms the warning timer. -/
theorem activity_dismisses_warning (s : GuardState) (now : Nat)
    (hu : s.user = true) (ht : now - s.lastActivity > 1000) :
    guardStep s (GuardEvent.activity now) = guardStep s (GuardEvent.stayLoggedIn now) ∧
    (guardStep s (GuardEvent.activity now)).showIdleWarning = false ∧
    (guardStep s (GuardEvent.activity now)).warningTimer =
      some (now + (IDLE_TIME - WARNING_TIME)) ∧
    (guardStep s (GuardEvent.activity now)).idleTimer = none := by
  simp [guardStep, handleUserActivity, extendSession, resetIdleTimer, hu, ht]

theorem activity_dismisses_warning_witness :
    guardStep warnedNoActivityState (GuardEvent.activity 1502000) =
      guardStep warnedNoActivityState (GuardEvent.stayLoggedIn 1502000) ∧
    (guardStep warnedNoActivityState (GuardEvent.activity 1502000)).showIdleWarning = false ∧
    (guardStep warnedNoActivityState (GuardEvent.activity 1502000)).warningTimer =
      some (1502000 + (IDLE_TIME - WARNING_TIME)) ∧
    (guardStep warnedNoActivityState (GuardEvent.activity 1502000)).idleTimer = none :=
  activity_dismisses_warning warnedNoActivityState 1502000 (by decide) (by decide)

/-- C4 (as stated, refuted): the spec's timer invariant fails in the
reachable state produced by a failed idle-logout — there the session is
still authenticated and the warning hidden, yet no timer at all is armed,
while the claim requires the warning timer to be armed in every
authenticated warning-hidden state. -/
theorem guard_timer_claim_counterexample :
    ¬ (∀ s : GuardState, Reachable s →
        (s.warningTimer = none ∨ s.idleTimer = none) ∧
        (s.showIdleWarning = true → s.idleTimer ≠ none) ∧
        (s.showIdleWarning = false →
          (s.warningTimer ≠ none ∧ s.idleTimer = none) ∨
          (s.user = false ∧ s.warningTimer = none ∧ s.idleTimer = none))) := by
  intro h
  have hr : Reachable failedLogoutState :=
    Reachable.step (GuardEvent.idleTimerFires false)
      (Reachable.step GuardEvent.warningTimerFires
        (Reachable.step (GuardEvent.signIn 0) Reachable.init))
  exact absurd (h failedLogoutState hr) (by decide)

/-- C4 (amended): in every reachable state of the session guard, at most one
of the warning timer and the logout timer is armed; if the idle warning is
visible the logout timer is armed and the warning timer is not; and if the
warning is hidden the logout timer is not armed (the warning timer may then
be armed, or no timer at all — the latter when unauthenticated or after a
failed auto-logout). -/
theorem guard_timer_invariant (s : GuardState) (h : Reachable s) :
    (s.warningTimer = none ∨ s.idleTimer = none) ∧
    (s.showIdleWarning = true → s.idleTimer ≠ none ∧ s.warningTimer = none) ∧
    (s.showIdleWarning = false → s.idleTimer = none) := by
  induction h with
  | init => simp [initialGuardState]
  | @step s e _ ih =>
    obtain ⟨ih1, ih2, ih3⟩ := ih
    cases e with
    | signIn now => simp [guardStep, resetIdleTimer]
    | signOutDetected => simp [guardStep, clearIdleTimers]
    | activity now =>
      by_cases hc : s.user = true ∧ now - s.lastActivity > 1000
      · simp [guardStep, handleUserActivity, hc, resetIdleTimer, hc.1]
      · have hg : guardStep s (GuardEvent.activity now) = s := by
          simp [guardStep, handleUserActivity, hc]
        rw [hg]
        exact ⟨ih1, ih2, ih3⟩
    | stayLoggedIn now =>
      cases hu : s.user with
      | true => simp [guardStep, extendSession, resetIdleTimer, hu]
      | false =>
        have hg : guardStep s (GuardEvent.stayLoggedIn now) = s := by
          simp [guardStep, extendSession, resetIdleTimer, hu]
        rw [hg]
        exact ⟨ih1, ih2, ih3⟩
    | warningTimerFires =>
      cases hw : s.warningTimer with
      | none =>
        have hg : guardStep s GuardEvent.warningTimerFires = s := by
          simp [guardStep, hw]
        rw [hg]
        exact ⟨ih1, ih2, ih3⟩
      | some t => simp [guardStep, hw, showWarning]
    | idleTimerFires ok =>
      cases hi : s.idleTimer with
      | none =>
        have hg : guardStep s (GuardEvent.idleTimerFires ok) = s := by
          simp [guardStep, hi]
        rw [hg]
        exact ⟨ih1, ih2, ih3⟩
      | some t => cases ok <;> simp [guardStep, hi, handleAutoLogout, clearIdleTimers]
    | logoutClick ok => cases ok <;> simp [guardStep, logout, clearIdleTimers]
    | logoutNowClick ok => cases ok <;> simp [guardStep, handleAutoLogout, clearIdleTimers]
    | loginCall => exact ⟨ih1, ih2, ih3⟩
    | registerCall isParent => exact ⟨ih1, ih2, ih3⟩

theorem guard_timer_invariant_witness :
    (failedLogoutState.warningTimer = none ∨ failedLogoutState.idleTimer = none) ∧
    (failedLogoutState.showIdleWarning = true →
      failedLogoutState.idleTimer ≠ none ∧ failedLogoutState.warningTimer = none) ∧
    (failedLogoutState.showIdleWarning = false → failedLogoutState.idleTimer = none) :=
  guard_timer_invariant failedLogoutState
    (Reachable.step (GuardEvent.idleTimerFires false)
      (Reachable.step GuardEvent.warningTimerFires
        (Reachable.step (GuardEvent.signIn 0) Reachable.init)))

/-- C7: with authentication at t = 0 and no activity or dismissal, the
warning timer is armed for `IDLE_TIME - WARNING_TIME` and fires at
t = 25 min, at which point the warning becomes visible and the logout timer
is armed for `WARNING_TIME`, firing at t = `IDLE_TIME` = 30 min. -/
theorem idle_schedule_spec :
    IDLE_TIME = 30 * 60 * 1000 ∧
    IDLE_TIME - WARNING_TIME = 25 * 60 * 1000 ∧
    (∀ (t : Nat) (s : GuardState), s.user = true →
      (resetIdleTimer t s).warningTimer = some (t + (IDLE_TIME - WARNING_TIME)) ∧
      (resetIdleTimer t s).idleTimer = none) ∧
    (∀ (t : Nat) (s : GuardState), (showWarning t s).idleTimer = some (t + WARNING_TIME)) ∧
    (guardStep initialGuardState (GuardEvent.signIn 0)).warningTimer =
      some (25 * 60 * 1000) ∧
    warnedNoActivityState.showIdleWarning = true ∧
    warnedNoActivityState.idleTimer = some (30 * 60 * 1000) := by
  refine ⟨rfl, rfl, ?_, fun t s => rfl, by decide, by decide, by decide⟩
  intro t s hu
  simp [resetIdleTimer, hu]

theorem idle_schedule_spec_witness :
    (resetIdleTimer 7 (guardStep initialGuardState (GuardEvent.signIn 0))).warningTimer =
      some (7 + (IDLE_TIME - WARNING_TIME)) ∧
    (resetIdleTimer 7 (guardStep initialGuardState (GuardEvent.signIn 0))).idleTimer = none :=
  idle_schedule_spec.2.2.1 7 (guardStep initialGuardState (GuardEvent.signIn 0)) (by decide)

/-! ## Claim theorems: the `user` cookie write/parse round trip -/

theorem hexVal?_hexDigitChar (m : Nat) (h : m < 16) :
    hexVal? (hexDigitChar m) = some m := by
  have hfin : ∀ i : Fin 16, hexVal? (hexDigitChar i.val) = some i.val := by decide
  exact hfin ⟨m, h⟩

theorem hexDigitChar_ne_percent (m : Nat) (h : m < 16) : hexDigitChar m ≠ '%' := by
  intro he
  have hv := hexVal?_hexDigitChar m h
  rw [he] at hv
  have hn : hexVal? '%' = none := by decide
  rw [hn] at hv
  exact Option.noConfusion hv

theorem percent_not_mem_jsonEscapeChar (c : Char) (h : c ≠ '%') :
    '%' ∉ jsonEscapeChar c := by
  unfold jsonEscapeChar
  split_ifs with h1 h2 h3 h4 h5 h6 h7 h8
  · decide
  · decide
  · decide
  · decide
  · decide
  · decide
  · decide
  · have hd1 : hexDigitChar (c.toNat / 16) ≠ '%' := hexDigitChar_ne_percent _ (by omega)
    have hd2 : hexDigitChar (c.toNat % 16) ≠ '%' :=
      hexDigitChar_ne_percent _ (Nat.mod_lt _ (by omega))
    intro hm
    rcases List.mem_cons.mp hm with he | hm
    · exact absurd he (by decide)
    rcases List.mem_cons.mp hm with he | hm
    · exact absurd he (by decide)
    rcases List.mem_cons.mp hm with he | hm
    · exact absurd he (by decide)
    rcases List.mem_cons.mp hm with he | hm
    · exact absurd he (by decide)
    rcases List.mem_cons.mp hm with he | hm
    · exact hd1 he.symm
    rcases List.mem_cons.mp hm with he | hm
    · exact hd2 he.symm
    · exact absurd hm (List.not_mem_nil _)
  · intro hm
    rcases List.mem_cons.mp hm with he | hm
    · exact h he.symm
    · exact absurd hm (List.not_mem_nil _)

theorem percent_not_mem_jsonEscapeL (s : List Char) (h : '%' ∉ s) :
    '%' ∉ jsonEscapeL s := by
  induction s with
  | nil => simp [jsonEscapeL]
  | cons c cs ih =>
    have hc : c ≠ '%' := fun hc => h (hc ▸ List.mem_cons_self c cs)
    have hcs : '%' ∉ cs := fun hm => h (List.mem_cons_of_mem c hm)
    have hesc : jsonEscapeL (c :: cs) = jsonEscapeChar c ++ jsonEscapeL cs := by
      simp [jsonEscapeL]
    rw [hesc]
    intro hm
    rcases List.mem_append.mp hm with hm | hm
    · exact percent_not_mem_jsonEscapeChar c hc hm
    · exact ih hcs hm

theorem percent_not_mem_serialize (role email : List Char)
    (h1 : '%' ∉ role) (h2 : '%' ∉ email) :
    '%' ∉ serializeUserDocL role email := by
  intro hm
  simp [serializeUserDocL, jsonQuoteL, String.data, List.mem_append, List.mem_cons] at hm
  rcases hm with hm | hm
  · exact percent_not_mem_jsonEscapeL role h1 hm
  · exact percent_not_mem_jsonEscapeL email h2 hm

theorem percentDecodeL_id (l : List Char) (h : '%' ∉ l) :
    percentDecodeL l = some l := by
  induction l with
  | nil => rfl
  | cons c cs ih =>
    have hc : c ≠ '%' := fun hc => h (hc ▸ List.mem_cons_self c cs)
    have hcs : '%' ∉ cs := fun hm => h (List.mem_cons_of_mem c hm)
    simp [percentDecodeL, hc, ih hcs]

theorem dropLitL_append (p s : List Char) : dropLitL p (p ++ s) = some s := by
  induction p with
  | nil => rfl
  | cons c cs ih => simp [dropLitL, ih]

theorem parseJsonStringBody_roundtrip (s rest : List Char) :
    parseJsonStringBody (jsonEscapeL s ++ '"' :: rest) = some (s, rest) := by
  induction s with
  | nil => simp [jsonEscapeL, parseJsonStringBody]
  | cons c cs ih =>
    have hesc : jsonEscapeL (c :: cs) = jsonEscapeChar c ++ jsonEscapeL cs := by
      simp [jsonEscapeL]
    rw [hesc, List.append_assoc]
    unfold jsonEscapeChar
    split_ifs with h1 h2 h3 h4 h5 h6 h7 h8
    · subst h1; simp [parseJsonStringBody, parseJsonEscape, ih]
    · subst h2; simp [parseJsonStringBody, parseJsonEscape, ih]
    · subst h3; simp [parseJsonStringBody, parseJsonEscape, ih]
    · subst h4; simp [parseJsonStringBody, parseJsonEscape, ih]
    · subst h5; simp [parseJsonStringBody, parseJsonEscape, ih]
    · subst h6; simp [parseJsonStringBody, parseJsonEscape, ih]
    · subst h7; simp [parseJsonStringBody, parseJsonEscape, ih]
    · have hd1 : c.toNat / 16 < 16 := by omega
      have hd2 : c.toNat % 16 < 16 := Nat.mod_lt _ (by omega)
      have h0 : hexVal? '0' = some 0 := by decide
      have hmod : 16 * (c.toNat / 16) + c.toNat % 16 = c.toNat := by omega
      simp [parseJsonStringBody, parseJsonEscape, parseJsonUnicode, h0,
        hexVal?_hexDigitChar _ hd1, hexVal?_hexDigitChar _ hd2, ih, hmod, Char.ofNat_toNat]
    · simp [parseJsonStringBody, h1, h2, ih]

theorem parseUserDocL_roundtrip (role email : List Char) :
    parseUserDocL (serializeUserDocL role email) = some (role, email) := by
  simp [parseUserDocL, serializeUserDocL, jsonQuoteL, String.data, dropLitL,
    parseJsonStringBody_roundtrip]

/-- C8 (as stated, refuted): the cookie value written at login is not the
URL-encoded `{role, email}` document the spec describes — `login` applies no
`encodeURIComponent`, so already for role `parent` and email `a@b` the
written raw JSON text differs from its URL-encoded form. -/
theorem cookie_not_url_encoded :
    ¬ (∀ (role email : String),
        writeLoginCookieValue role email = specLoginCookieValue role email ∧
        getUserFromCookieValue (writeLoginCookieValue role email) =
          some ⟨role, email⟩) := by
  intro h
  exact absurd (h "parent" "a@b").1 (by decide)

/-- C8 (amended): the `user` cookie written at login is the raw
`JSON.stringify` text of the `{role, email}` document (no URL-encoding),
and the middleware's parse (`decodeURIComponent` then `JSON.parse`)
recovers exactly the role and email that were written whenever neither
contains a `%` character. -/
theorem cookie_roundtrip_no_percent (role email : String)
    (h1 : '%' ∉ role.data) (h2 : '%' ∉ email.data) :
    getUserFromCookieValue (writeLoginCookieValue role email) = some ⟨role, email⟩ := by
  show (match percentDecodeL (serializeUserDocL role.data email.data) with
    | none => none
    | some d =>
      match parseUserDocL d with
      | none => none
      | some (r, e) => some (⟨String.mk r, String.mk e⟩ : SessionUser)) = some ⟨role, email⟩
  rw [percentDecodeL_id _ (percent_not_mem_serialize _ _ h1 h2)]
  simp [parseUserDocL_roundtrip]

theorem cookie_roundtrip_no_percent_witness :
    getUserFromCookieValue (writeLoginCookieValue "parent" "a@b") =
      some ⟨"parent", "a@b"⟩ :=
  cookie_roundtrip_no_percent "parent" "a@b" (by decide) (by decide)

end StoryApp
